import Mathlib

/-!
Shallow embedding of `tracker.py`, a 12-week workout program tracker.

Conventions of the embedding:
* Python numbers (ints and floats) are modelled as `ℤ` / `ℚ`.  Every numeric
  value occurring in the static program is a multiple of 1/2, and every deload
  product is a multiple of 1/4, all of magnitude below 2^10, so binary floating
  point evaluates them exactly (products land back on the representable exact
  value); rational arithmetic is therefore a faithful model on the whole
  reachable domain.
* Python `round` is round-half-to-even (`round_load` below).
* A Python dict literal with optional keys is a structure of `Option` fields;
  `dict[k]` on a missing key (KeyError) is modelled by `Option.bind`, so a
  rendering function returns `Option String`, `none` meaning an uncaught
  exception.
* `print(s)` is modelled by appending the formatted argument to an output list.
-/

namespace Tracker

/-- Constant `DELOAD_WEEKS = [6, 10]` (the script binds `DELoad_WEEKS = DELOAD_WEEKS`
under the `__main__` guard, so both names denote this list). -/
def DELOAD_WEEKS : List Nat := [6, 10]

/-- Constant `DELOAD_FACTOR = 0.9`. -/
def DELOAD_FACTOR : ℚ := 9 / 10

/-- Helper `round_load(value) = int(round(value))`: Python `round`, i.e. rounding to
the nearest integer with ties going to the even integer. -/
def round_load (value : ℚ) : ℤ :=
  if value - ⌊value⌋ < 1 / 2 then ⌊value⌋
  else if 1 / 2 < value - ⌊value⌋ then ⌊value⌋ + 1
  else if ⌊value⌋ % 2 = 0 then ⌊value⌋ else ⌊value⌋ + 1

/-- Function `calculate_load(week, base_load, weekly_increment)`: the normal
(non-deload) load for the given week, with the `week < 1` safety check. -/
def calculate_load (week : Nat) (base_load weekly_increment : ℚ) : ℚ :=
  if week < 1 then base_load
  else base_load + ((week : ℚ) - 1) * weekly_increment

/-- Function `deload_adjustment(load) = round_load(load * DELOAD_FACTOR)`. -/
def deload_adjustment (load : ℚ) : ℤ :=
  round_load (load * DELOAD_FACTOR)

/-- Function `get_sets_for_week(week, base_sets)`: on a deload week 4 ↦ 3, 5 ↦ 4,
6 ↦ 4, otherwise the base set count. -/
def get_sets_for_week (week : Nat) (base_sets : ℤ) : ℤ :=
  if week ∈ DELOAD_WEEKS then
    if base_sets = 4 then 3
    else if base_sets = 5 then 4
    else if base_sets = 6 then 4
    else base_sets
  else base_sets

/-- Function `get_intervals_for_week(week, base_intervals)`: on a deload week any
count ≥ 5 becomes 4. -/
def get_intervals_for_week (week : Nat) (base_intervals : ℤ) : ℤ :=
  if week ∈ DELOAD_WEEKS then
    if base_intervals ≥ 5 then 4
    else base_intervals
  else base_intervals

/-- Function `get_mph_for_week(week, base_mph, increment)`: linear progression,
rounded; deload does not alter the pace. -/
def get_mph_for_week (week : Nat) (base_mph increment : ℚ) : ℤ :=
  round_load (base_mph + ((week : ℚ) - 1) * increment)

/-- Function `get_minutes_for_week(week, base_minutes, increment)`: linear progression;
on a deload week scaled by 0.8 and rounded; clamped to ≥ 0. -/
def get_minutes_for_week (week : Nat) (base_minutes increment : ℚ) : ℚ :=
  let normal := base_minutes + ((week : ℚ) - 1) * increment
  let adjusted : ℚ :=
    if week ∈ DELOAD_WEEKS then ((round_load (normal * (8 / 10)) : ℤ) : ℚ)
    else normal
  max 0 adjusted

/-- The load printed by the loaded-exercise branch of `main`
(lines 371–377): deload weeks use `deload_adjustment` on the unrounded
linear load, other weeks round it directly. -/
def adjusted_load (week : Nat) (base_load increment : ℚ) : ℤ :=
  if week ∈ DELOAD_WEEKS then deload_adjustment (calculate_load week base_load increment)
  else round_load (calculate_load week base_load increment)

/-- The pool-work rest seconds printed by `main` (lines 410 and 414):
`rest_sec = base_rest_sec - rest_decrement_sec * ((week - 1) // 2)` followed by
`rest_sec = max(5, rest_sec)`; Python `//` is floor division (`Int.fdiv`). -/
def pool_rest (week : Nat) (base_rest_sec rest_decrement_sec : ℤ) : ℤ :=
  max 5 (base_rest_sec - rest_decrement_sec * Int.fdiv ((week : ℤ) - 1) 2)

/-- An exercise dict of `PROGRAM`: each optional key is an `Option` field.
Only these fourteen keys occur in the source. -/
structure Exercise where
  name : String
  description : Option String := none
  sets : Option ℤ := none
  reps : Option ℤ := none
  base_load : Option ℚ := none
  increment : Option ℚ := none
  intervals : Option ℤ := none
  base_mph : Option ℚ := none
  increment_mph : Option ℚ := none
  base_rest_sec : Option ℤ := none
  rest_decrement_sec : Option ℤ := none
  duration : Option ℤ := none
  duration_sec : Option ℤ := none
  increment_sec : Option ℤ := none
deriving DecidableEq, Repr

/-- Number of keys of the dict: `len(ex.keys())`.  `name` is always present;
each `some` field contributes one key. -/
def keysCount (ex : Exercise) : Nat :=
  1 + (if ex.description.isSome then 1 else 0) + (if ex.sets.isSome then 1 else 0)
    + (if ex.reps.isSome then 1 else 0) + (if ex.base_load.isSome then 1 else 0)
    + (if ex.increment.isSome then 1 else 0) + (if ex.intervals.isSome then 1 else 0)
    + (if ex.base_mph.isSome then 1 else 0) + (if ex.increment_mph.isSome then 1 else 0)
    + (if ex.base_rest_sec.isSome then 1 else 0)
    + (if ex.rest_decrement_sec.isSome then 1 else 0)
    + (if ex.duration.isSome then 1 else 0) + (if ex.duration_sec.isSome then 1 else 0)
    + (if ex.increment_sec.isSome then 1 else 0)

/-- Python truthiness of an optional integer (`if sets and reps:`):
`None` and `0` are falsy. -/
def truthy : Option ℤ → Bool
  | none => false
  | some z => z ≠ 0

/-- Substring test: Python `pat in s`. -/
def strContainsSub (s pat : String) : Bool :=
  s.data.tails.any fun t => pat.data.isPrefixOf t

/-- The branch of the `for ex in exercises` dispatch chain an exercise
falls into (`main`, lines 357–449).  The chain tests field presence in
order; the interval sub-branches test the exercise name for substrings. -/
inductive Branch where
  | descriptive
  | loaded
  | intervalTreadmill
  | intervalSprint
  | intervalPool
  | intervalOther
  | durationProg
  | timedHold
  | bodyweight
  | fallback
deriving DecidableEq, Repr

/-- Which branch of the `if`/`elif` chain handles `ex` (depends only on the
fields present and the name, not on the week). -/
def dispatch (ex : Exercise) : Branch :=
  if ex.description.isSome && (keysCount ex == 2) then .descriptive
  else if ex.base_load.isSome && ex.increment.isSome then .loaded
  else if ex.intervals.isSome then
    if strContainsSub ex.name "Treadmill Intervals" then .intervalTreadmill
    else if strContainsSub ex.name "Sprint Intervals" then .intervalSprint
    else if strContainsSub ex.name "Pool Intervals" then .intervalPool
    else .intervalOther
  else if ex.duration.isSome && ex.increment.isSome then .durationProg
  else if ex.duration_sec.isSome && ex.increment_sec.isSome then .timedHold
  else if ex.sets.isSome && ex.reps.isSome then .bodyweight
  else .fallback

/-- Python `print` of a number that is an integer-valued rational. -/
def numStr (q : ℚ) : String :=
  if q.den = 1 then toString q.num else toString q

/-- The line printed for one exercise by the loop body of `main`
(lines 357–449); `none` models an uncaught `KeyError` on a missing key
accessed without a presence check. -/
def renderExercise (week : Nat) (ex : Exercise) : Option String :=
  match dispatch ex with
  | .descriptive =>
      some ("- " ++ ex.name ++ ": " ++ ex.description.getD "")
  | .loaded => do
      let bl ← ex.base_load
      let inc ← ex.increment
      let adj := adjusted_load week bl inc
      let setsOpt := ex.sets.map fun s => get_sets_for_week week s
      if truthy setsOpt && truthy ex.reps then
        some ("- " ++ ex.name ++ ": " ++ toString (setsOpt.getD 0) ++ "x"
          ++ toString (ex.reps.getD 0) ++ " @ " ++ toString adj ++ " lbs")
      else if truthy setsOpt then
        some ("- " ++ ex.name ++ ": " ++ toString (setsOpt.getD 0)
          ++ " sets @ " ++ toString adj ++ " lbs")
      else
        some ("- " ++ ex.name ++ ": " ++ toString adj ++ " lbs")
  | .intervalTreadmill => do
      let ivs0 ← ex.intervals
      let bm ← ex.base_mph
      let im ← ex.increment_mph
      let mph := get_mph_for_week week bm im
      let ivs := get_intervals_for_week week ivs0
      some ("- " ++ ex.name ++ ": " ++ toString ivs ++ " x 1 min @ "
        ++ toString mph ++ " mph (1 min rest)")
  | .intervalSprint => do
      let ivs0 ← ex.intervals
      let ivs := get_intervals_for_week week ivs0
      some ("- " ++ ex.name ++ ": " ++ toString ivs ++ "x100m "
        ++ ex.description.getD "")
  | .intervalPool => do
      let ivs0 ← ex.intervals
      let br ← ex.base_rest_sec
      let rd ← ex.rest_decrement_sec
      let ivs := if week ∈ DELOAD_WEEKS then get_intervals_for_week week ivs0 else ivs0
      let rest := pool_rest week br rd
      some ("- " ++ ex.name ++ ": " ++ toString ivs ++ "x25m (~"
        ++ toString rest ++ "s rest)")
  | .intervalOther => do
      let ivs ← ex.intervals
      some ("- " ++ ex.name ++ ": " ++ toString ivs ++ " intervals (no specific logic)")
  | .durationProg => do
      let base ← ex.duration
      let inc ← ex.increment
      let m := get_minutes_for_week week (base : ℚ) inc
      some ("- " ++ ex.name ++ ": " ++ numStr m ++ " min")
  | .timedHold => do
      let bs ← ex.duration_sec
      let incSec ← ex.increment_sec
      let total0 : ℤ := bs + incSec * ((week : ℤ) - 1)
      let total : ℤ :=
        if week ∈ DELOAD_WEEKS then round_load ((total0 : ℚ) * DELOAD_FACTOR)
        else total0
      let s ← ex.sets
      let sets := get_sets_for_week week s
      some ("- " ++ ex.name ++ ": " ++ toString sets ++ "x ~" ++ toString total ++ "s")
  | .bodyweight => do
      let s ← ex.sets
      let r ← ex.reps
      let sets := get_sets_for_week week s
      some ("- " ++ ex.name ++ ": " ++ toString sets ++ "x" ++ toString r ++ ", Bodyweight")
  | .fallback =>
      some ("- " ++ ex.name)

/-- A value of the `PROGRAM` dict: a title and an ordered exercise list. -/
structure DayPlan where
  title : String
  exercises : List Exercise
deriving DecidableEq, Repr

/-- Tuesday's pool-intervals entry (named so theorems can refer to it). -/
def poolIntervalsEx : Exercise :=
  { name := "Pool Intervals", intervals := some 6,
    base_rest_sec := some 30, rest_decrement_sec := some 5 }

/-- Monday's ring push-ups entry (bodyweight: load fields present, value 0). -/
def ringPushUpsEx : Exercise :=
  { name := "Ring Push-Ups", sets := some 4, reps := some 8,
    base_load := some 0, increment := some 0 }

/-- Table `PROGRAM` as an ordered list of day plans, index = day of week
(0 = Sunday … 6 = Saturday). -/
def PROGRAM_DAYS : List DayPlan :=
  [ { title := "Sunday (Recovery or Light Cardio)",
      exercises :=
        [ { name := "Recovery or Light Cardio",
            description := some "Walk, yoga, gentle swim. No heavy lifting." } ] },
    { title := "Monday",
      exercises :=
        [ { name := "Snatch", sets := some 4, reps := some 3,
            base_load := some 100, increment := some (5 / 2) },
          { name := "Back Squat", sets := some 4, reps := some 5,
            base_load := some 145, increment := some 5 },
          ringPushUpsEx,
          { name := "Ring Rows", sets := some 4, reps := some 8,
            base_load := some 0, increment := some 0 },
          { name := "Box Jumps", sets := some 4, reps := some 3,
            base_load := some 0, increment := some 0 },
          { name := "Treadmill Intervals", intervals := some 5,
            base_mph := some 6, increment_mph := some (1 / 2) } ] },
    { title := "Tuesday",
      exercises :=
        [ { name := "Clean & Jerk", sets := some 4, reps := some 3,
            base_load := some 135, increment := some 5 },
          { name := "Bench Press", sets := some 4, reps := some 5,
            base_load := some 105, increment := some 5 },
          { name := "Ring Chin-Ups", sets := some 4, reps := some 6,
            base_load := some 0, increment := some 0 },
          { name := "Ring Dips", sets := some 4, reps := some 6,
            base_load := some 0, increment := some 0 },
          { name := "Split Squat Jumps", sets := some 3, reps := some 5,
            base_load := some 0, increment := some 0 },
          poolIntervalsEx ] },
    { title := "Wednesday",
      exercises :=
        [ { name := "Deadlift", sets := some 4, reps := some 5,
            base_load := some 185, increment := some 10 },
          { name := "Overhead Press", sets := some 4, reps := some 5,
            base_load := some 75, increment := some (5 / 2) },
          { name := "Ring Bodyweight Row", sets := some 3, reps := some 10,
            base_load := some 0, increment := some 0 },
          { name := "Ring Push-Ups (Feet Elevated)", sets := some 3, reps := some 10,
            base_load := some 0, increment := some 0 },
          { name := "Broad Jumps", sets := some 4, reps := some 2,
            base_load := some 0, increment := some 0 },
          { name := "Treadmill Run", duration := some 10, increment := some 1 } ] },
    { title := "Thursday",
      exercises :=
        [ { name := "Extended Mobility",
            description := some "20 min stretch + foam roll" },
          { name := "Snatch (Technique)", sets := some 3, reps := some 3,
            base_load := some 80, increment := some 2 },
          { name := "Pallof Holds (Band)", sets := some 3, reps := some 10,
            base_load := some 0, increment := some 0 },
          { name := "DB Walking Lunges", sets := some 3, reps := some 8,
            base_load := some 50, increment := some 5 },
          { name := "Core Plank Variations", sets := some 3,
            duration_sec := some 45, increment_sec := some 10 },
          { name := "Zone 2 Cardio", duration := some 20, increment := some 2 } ] },
    { title := "Friday",
      exercises :=
        [ { name := "Power Clean", sets := some 4, reps := some 3,
            base_load := some 155, increment := some (5 / 2) },
          { name := "Front Squat", sets := some 4, reps := some 3,
            base_load := some 135, increment := some 5 },
          { name := "Ring Supported Push-Up Hold (Top Lock)", sets := some 3,
            duration_sec := some 15, increment_sec := some 5 },
          { name := "Single-Leg RDL (DBs)", sets := some 3, reps := some 8,
            base_load := some 40, increment := some 5 },
          { name := "Sprint Intervals", intervals := some 6,
            description := some "~90% effort" } ] },
    { title := "Saturday",
      exercises :=
        [ { name := "Recovery or Light Cardio",
            description := some "Walk, yoga, gentle swim. No heavy lifting." } ] } ]

/-- Lookup `PROGRAM[dow]`: dict access, `none` modelling a `KeyError`. -/
def PROGRAM (day_of_week : Nat) : Option DayPlan :=
  PROGRAM_DAYS[day_of_week]?

/-! ### The driver (`main`): date handling and output -/

/-- Gregorian leap year, as in `datetime`. -/
def isLeap (y : Nat) : Bool :=
  y % 4 == 0 && (y % 100 != 0 || y % 400 == 0)

/-- Length of month `m` of year `y`. -/
def daysInMonth (y m : Nat) : Nat :=
  if m = 2 then (if isLeap y then 29 else 28)
  else if m = 4 ∨ m = 6 ∨ m = 9 ∨ m = 11 then 30
  else 31

/-- Days in year `y` strictly before month `m`. -/
def daysBeforeMonth (y m : Nat) : Nat :=
  ((List.range (m - 1)).map fun i => daysInMonth y (i + 1)).sum

/-- Proleptic Gregorian ordinal of a date, as in `datetime.date.toordinal`
(0001-01-01 has ordinal 1); a difference of `date` objects in days is a
difference of ordinals. -/
def toOrdinal (y m d : Nat) : Nat :=
  (y - 1) * 365 + (y - 1) / 4 - (y - 1) / 100 + (y - 1) / 400
    + daysBeforeMonth y m + d

/-- Constant `START_DATE = date(2024, 12, 29)`, kept as its (year, month, day). -/
def START_DATE : Nat × Nat × Nat := (2024, 12, 29)

/-- Ordinal of `START_DATE`. -/
def START_ORD : Nat := toOrdinal 2024 12 29

/-- Digits-only string to number (`none` if empty or non-digit). -/
def digitsToNat (s : String) : Option Nat :=
  if s ≠ "" && s.data.all Char.isDigit then
    some (s.data.foldl (fun a c => a * 10 + (c.toNat - 48)) 0)
  else none

/-- Split a character list at dashes (the semantics of `splitOn "-"`,
written by structural recursion). -/
def splitDashAux : List Char → List Char → List String
  | [], acc => [String.mk acc.reverse]
  | c :: cs, acc =>
    if c = '-' then String.mk acc.reverse :: splitDashAux cs []
    else splitDashAux cs (c :: acc)

/-- Model of CPython's `%d` token, whose regex is
`3[01]|[12]\d|0[1-9]|[1-9]| [1-9]`: one or two digits (value range enforced
below), or a space followed by a single nonzero digit. -/
def dayToNat (s : String) : Option Nat :=
  match s.data with
  | [' ', c] => if c.isDigit && c != '0' then some (c.toNat - 48) else none
  | _ => if s.length ≤ 2 then digitsToNat s else none

/-- Model of `datetime.strptime(arg, "%Y-%m-%d").date()` on ASCII-digit
strings: `%Y` is exactly four digits (CPython regex `\d\d\d\d`), `%m` one or
two digits valued 1–12, `%d` per `dayToNat` (so a space-padded day like
`" 9"` parses), joined by literal dashes with nothing left over; the
`datetime` constructor then requires year ≥ 1 and the day to fit the month.
`none` models the `ValueError`.  (CPython's `\d` additionally matches
non-ASCII decimal digits; such strings are outside this model.) -/
def parseDate (s : String) : Option (Nat × Nat × Nat) :=
  match splitDashAux s.data [] with
  | [ys, ms, ds] =>
    match digitsToNat ys, digitsToNat ms, dayToNat ds with
    | some y, some m, some d =>
      if ys.length == 4 && ms.length ≤ 2
          && 1 ≤ y && 1 ≤ m && m ≤ 12
          && 1 ≤ d && d ≤ daysInMonth y m then
        some (y, m, d)
      else none
    | _, _, _ => none
  | _ => none

/-- Zero-padded two-digit rendering. -/
def pad2 (n : Nat) : String :=
  if n < 10 then "0" ++ toString n else toString n

/-- Zero-padded four-digit rendering. -/
def pad4 (n : Nat) : String :=
  if n < 10 then "000" ++ toString n
  else if n < 100 then "00" ++ toString n
  else if n < 1000 then "0" ++ toString n
  else toString n

/-- Format `strftime('%Y-%m-%d')` (also `str(date)`). -/
def fmtDate (y m d : Nat) : String :=
  pad4 y ++ "-" ++ pad2 m ++ "-" ++ pad2 d

/-- Separator line `"-" * 40`. -/
def dashes40 : String := String.mk (List.replicate 40 '-')

/-- The header lines printed before the exercise list. -/
def headerLines (y m d week : Nat) (title : String) : List String :=
  [ "\n--- DAILY WORKOUT ---",
    "Date: " ++ fmtDate y m d,
    "Week: " ++ toString week ++ "  |  Day: " ++ title,
    dashes40 ]

/-- The footer lines printed after the exercise list. -/
def footerLines : List String :=
  [ dashes40, "Enjoy your training!\n" ]

/-- Body of `main` after the date has been parsed: returns the exit status and the
list of printed strings (one per `print` call); `none` models an uncaught
exception. -/
def runOnDate (y m d : Nat) : Option (Nat × List String) :=
  let day_offset : ℤ := (toOrdinal y m d : ℤ) - (START_ORD : ℤ)
  if day_offset < 0 then
    some (0, ["Program starts on " ++ fmtDate 2024 12 29 ++ ". Today is too early."])
  else if day_offset > 83 then
    some (0, ["The 12-week program has been completed."])
  else
    let week := day_offset.toNat / 7 + 1
    let day_of_week := day_offset.toNat % 7
    match PROGRAM day_of_week with
    | none => none
    | some day_data =>
      match day_data.exercises.mapM (renderExercise week) with
      | none => none
      | some lines =>
        some (0, headerLines y m d week day_data.title ++ lines ++ footerLines)

/-- All 84 reachable (week, day) renderings succeed: used to show the
rendering loop never hits a missing-key exception on the static program. -/
def renderOkAll : Bool :=
  (List.range 12).all fun wi => PROGRAM_DAYS.all fun day =>
    (day.exercises.mapM (renderExercise (wi + 1))).isSome

/-- Driver `main`, given the command-line arguments after the script name
(`sys.argv[1:]`): exit status and printed strings. -/
def runMain (args : List String) : Option (Nat × List String) :=
  match args with
  | [] => some (1, ["Usage: python3 tracker.py YYYY-MM-DD"])
  | dstr :: _ =>
    match parseDate dstr with
    | none => some (1, ["Invalid date format. Use YYYY-MM-DD."])
    | some (y, m, d) => runOnDate y m d

end Tracker

open Tracker

/-! ### Helper lemmas -/

lemma mem_deload_iff (week : Nat) : week ∈ DELOAD_WEEKS ↔ week = 6 ∨ week = 10 := by
  simp [DELOAD_WEEKS]

lemma not_mem_deload {week : Nat} (h : ¬(week = 6 ∨ week = 10)) :
    week ∉ DELOAD_WEEKS := fun hc => h ((mem_deload_iff week).mp hc)

lemma round_load_int_add_half (k : ℤ) :
    round_load ((k : ℚ) + 1 / 2) = if k % 2 = 0 then k else k + 1 := by
  have h0 : ⌊(1 / 2 : ℚ)⌋ = 0 := by
    rw [Int.floor_eq_zero_iff]
    constructor <;> norm_num
  have hf : ⌊(k : ℚ) + 1 / 2⌋ = k := by
    rw [add_comm, Int.floor_add_int, h0, zero_add]
  have hr : ((k : ℚ) + 1 / 2) - (k : ℚ) = 1 / 2 := by ring
  unfold round_load
  rw [hf, hr, if_neg (by norm_num), if_neg (by norm_num)]

/-! ### Claim theorems -/

/-- C4: for every week and base set count, the prescribed set count is the
base count except on deload weeks (exactly 6 and 10), where 4 ↦ 3, 5 ↦ 4,
6 ↦ 4 and every other base passes through unchanged.  (`get_sets_for_week`
receives only the week and the base set count, so the mapping is independent
of the load deload.) -/
theorem set_count_deload_rule (week : Nat) (base_sets : ℤ) :
    ((week = 6 ∨ week = 10) →
      get_sets_for_week week base_sets =
        (if base_sets = 4 then 3 else if base_sets = 5 then 4
         else if base_sets = 6 then 4 else base_sets)) ∧
    (¬(week = 6 ∨ week = 10) → get_sets_for_week week base_sets = base_sets) := by
  constructor
  · intro h
    unfold get_sets_for_week
    rw [if_pos ((mem_deload_iff week).mpr h)]
  · intro h
    unfold get_sets_for_week
    rw [if_neg (not_mem_deload h)]

/-- Witness for C4: week 6 maps a base of 5 to 4; week 7 leaves it unchanged. -/
theorem set_count_deload_rule_witness :
    get_sets_for_week 6 5 = 4 ∧ get_sets_for_week 7 5 = 5 :=
  ⟨((set_count_deload_rule 6 5).1 (Or.inl rfl)).trans (by decide),
   (set_count_deload_rule 7 5).2 (by decide)⟩

/-- C5: for every week and base interval count, the prescribed interval
count is the base count except on deload weeks (exactly 6 and 10), where any
base ≥ 5 becomes 4 and smaller counts are unchanged. -/
theorem interval_count_deload_rule (week : Nat) (base_intervals : ℤ) :
    ((week = 6 ∨ week = 10) →
      get_intervals_for_week week base_intervals =
        (if 5 ≤ base_intervals then 4 else base_intervals)) ∧
    (¬(week = 6 ∨ week = 10) →
      get_intervals_for_week week base_intervals = base_intervals) := by
  constructor
  · intro h
    unfold get_intervals_for_week
    rw [if_pos ((mem_deload_iff week).mpr h)]
  · intro h
    unfold get_intervals_for_week
    rw [if_neg (not_mem_deload h)]

/-- Witness for C5: week 10 maps 6 intervals to 4, leaves 4 unchanged;
week 3 leaves 6 unchanged. -/
theorem interval_count_deload_rule_witness :
    get_intervals_for_week 10 6 = 4 ∧ get_intervals_for_week 10 4 = 4 ∧
    get_intervals_for_week 3 6 = 6 :=
  ⟨((interval_count_deload_rule 10 6).1 (Or.inr rfl)).trans (by decide),
   ((interval_count_deload_rule 10 4).1 (Or.inr rfl)).trans (by decide),
   (interval_count_deload_rule 3 6).2 (by decide)⟩

/-- C1: for every loaded spec (base load, weekly increment) and week 1–12,
the prescribed load is `round_load (base + (week-1)·inc)` off deload, and on a
deload week (exactly 6 and 10) it is the unrounded linear value times 0.9,
then rounded. -/
theorem load_progression_rule (base_load increment : ℚ) (week : Nat)
    (h1 : 1 ≤ week) (_h2 : week ≤ 12) :
    adjusted_load week base_load increment =
      if week = 6 ∨ week = 10 then
        round_load ((base_load + ((week : ℚ) - 1) * increment) * (9 / 10))
      else round_load (base_load + ((week : ℚ) - 1) * increment) := by
  have hcl : calculate_load week base_load increment
      = base_load + ((week : ℚ) - 1) * increment := by
    unfold calculate_load
    rw [if_neg (by omega)]
  unfold adjusted_load deload_adjustment
  rw [hcl]
  by_cases h : week = 6 ∨ week = 10
  · rw [if_pos ((mem_deload_iff week).mpr h), if_pos h]
    rfl
  · rw [if_neg (not_mem_deload h), if_neg h]

/-- Witness for C1: the Snatch (base 100, +2.5/week) gives 101 lbs on deload
week 6 (112.5 · 0.9 = 101.25), 102 lbs on week 2 (102.5 rounded), and the
Deadlift (base 185, +10/week) gives 248 lbs on deload week 10 (247.5 scaled). -/
theorem load_progression_rule_witness :
    adjusted_load 6 100 (5 / 2) = 101 ∧ adjusted_load 2 100 (5 / 2) = 102 ∧
    adjusted_load 10 185 10 = 248 :=
  ⟨(load_progression_rule 100 (5 / 2) 6 (by decide) (by decide)).trans
     (by with_unfolding_all decide),
   (load_progression_rule 100 (5 / 2) 2 (by decide) (by decide)).trans
     (by with_unfolding_all decide),
   (load_progression_rule 185 10 10 (by decide) (by decide)).trans
     (by with_unfolding_all decide)⟩

/-- C10: `round_load` (used for all loads, paces and deload-scaled values)
rounds half-ties to the even integer: an even integer plus ½ rounds down, an
odd integer plus ½ rounds up; concretely the Snatch's week-2 load 102.5
rounds to 102, the treadmill's week-2 pace 6.5 rounds to 6, and the deload
adjustment of a load of 95 (85.5) rounds to 86. -/
theorem round_half_even_rule :
    (∀ n : ℤ, round_load (((2 * n : ℤ) : ℚ) + 1 / 2) = 2 * n) ∧
    (∀ n : ℤ, round_load (((2 * n + 1 : ℤ) : ℚ) + 1 / 2) = 2 * n + 2) ∧
    calculate_load 2 100 (5 / 2) = 205 / 2 ∧
    round_load (205 / 2) = 102 ∧
    get_mph_for_week 2 6 (1 / 2) = 6 ∧
    deload_adjustment 95 = 86 := by
  refine ⟨?_, ?_, by with_unfolding_all decide, by with_unfolding_all decide,
    by with_unfolding_all decide, by with_unfolding_all decide⟩
  · intro n
    rw [round_load_int_add_half, if_pos (by omega)]
  · intro n
    rw [round_load_int_add_half, if_neg (by omega)]
    ring

/-- Witness for C10 at n = 2: 4.5 rounds to 4 and 5.5 rounds to 6. -/
theorem round_half_even_rule_witness :
    round_load (((2 * 2 : ℤ) : ℚ) + 1 / 2) = 2 * 2 ∧
    round_load (((2 * 2 + 1 : ℤ) : ℚ) + 1 / 2) = 2 * 2 + 2 :=
  ⟨round_half_even_rule.1 2, round_half_even_rule.2.1 2⟩

/-- C3: for every exercise of the static program that has a load
progression (both load fields present and a nonzero weekly increment — the
zero-increment entries are bodyweight rows whose source comments read
"No external load progression"), the non-deload load is monotonically
non-decreasing over weeks 1–12, and on a deload week the computed load is
strictly below what the non-deload formula would give for that week. -/
theorem load_monotone_and_deload_strict :
    ∀ (dw : Nat) (day : DayPlan), PROGRAM dw = some day →
    ∀ ex ∈ day.exercises, ∀ bl i : ℚ,
      ex.base_load = some bl → ex.increment = some i → i ≠ 0 →
      (∀ w1, w1 < 13 → ∀ w2, w2 < 13 → 1 ≤ w1 → w1 ≤ w2 →
        round_load (calculate_load w1 bl i) ≤ round_load (calculate_load w2 bl i)) ∧
      (∀ w, w < 13 → w ∈ DELOAD_WEEKS →
        adjusted_load w bl i < round_load (calculate_load w bl i)) := by
  intro dw day hday ex hex bl i hbl hinc hi
  have hdaymem : day ∈ PROGRAM_DAYS := List.getElem?_mem hday
  clear hday
  fin_cases hdaymem <;> fin_cases hex <;>
    (try dsimp only [ringPushUpsEx, poolIntervalsEx] at hbl hinc) <;>
    first
      | exact Option.noConfusion hbl
      | (injection hbl with hbl'
         injection hinc with hinc'
         subst hbl'
         subst hinc'
         first
           | exact absurd rfl hi
           | exact ⟨by with_unfolding_all decide, by with_unfolding_all decide⟩)

/-- Witness for C3 at the Snatch (Monday, base 100, +2.5/week): week 3's
load is at least week 2's, and deload week 6 is strictly below the
non-deload value for week 6. -/
theorem load_monotone_and_deload_strict_witness :
    round_load (calculate_load 2 100 (5 / 2)) ≤ round_load (calculate_load 3 100 (5 / 2)) ∧
    adjusted_load 6 100 (5 / 2) < round_load (calculate_load 6 100 (5 / 2)) := by
  have h := load_monotone_and_deload_strict 1 _ rfl
    { name := "Snatch", sets := some 4, reps := some 3,
      base_load := some 100, increment := some (5 / 2) }
    (by simp [PROGRAM_DAYS]) 100 (5 / 2) rfl rfl (by norm_num)
  exact ⟨h.1 2 (by decide) 3 (by decide) (by decide) (by decide),
         h.2 6 (by decide) (by decide)⟩

/-- C6: for every week the pool-work rest equals
`base_rest - decrement * floor((week-1)/2)` clamped below at 5, so the
rendered rest is never below 5 however large the week grows; on deload weeks
(exactly 6 and 10) the interval count, not the rest, is reduced (6 → 4). -/
theorem pool_rest_clamp_rule :
    ∀ (week : Nat) (base_rest decr : ℤ),
      5 ≤ pool_rest week base_rest decr ∧
      pool_rest week base_rest decr
        = max 5 (base_rest - decr * Int.fdiv ((week : ℤ) - 1) 2) ∧
      renderExercise week poolIntervalsEx =
        some ("- Pool Intervals: "
          ++ toString (if week = 6 ∨ week = 10 then (4 : ℤ) else 6)
          ++ "x25m (~" ++ toString (pool_rest week 30 5) ++ "s rest)") := by
  intro week base_rest decr
  refine ⟨le_max_left _ _, rfl, ?_⟩
  have hd : dispatch poolIntervalsEx = Branch.intervalPool := by decide
  have hiv : (if week ∈ DELOAD_WEEKS then get_intervals_for_week week 6 else (6 : ℤ))
      = if week = 6 ∨ week = 10 then 4 else 6 := by
    by_cases h : week = 6 ∨ week = 10
    · rw [if_pos ((mem_deload_iff week).mpr h), if_pos h]
      unfold get_intervals_for_week
      rw [if_pos ((mem_deload_iff week).mpr h), if_pos (by norm_num)]
    · rw [if_neg (not_mem_deload h), if_neg h]
  unfold renderExercise
  rw [hd]
  dsimp only [poolIntervalsEx, bind, Option.bind]
  rw [hiv]
  rw [show "- " ++ "Pool Intervals" ++ ": " = "- Pool Intervals: " from rfl]

/-- Witness for C6: on deload week 6 the pool entry renders 4 intervals with
the clamped 20 s rest, and at week 100 the rest is still at least 5. -/
theorem pool_rest_clamp_rule_witness :
    5 ≤ pool_rest 100 30 5 ∧
    renderExercise 6 poolIntervalsEx = some "- Pool Intervals: 4x25m (~20s rest)" :=
  ⟨(pool_rest_clamp_rule 100 30 5).1,
   ((pool_rest_clamp_rule 6 30 5).2.2).trans (by decide)⟩

lemma renderOkAll_true : renderOkAll = true := by
  with_unfolding_all decide

lemma mapM_render_isSome :
    ∀ week : Nat, 1 ≤ week → week ≤ 12 → ∀ (dw : Nat) (day : DayPlan),
      PROGRAM dw = some day →
      (day.exercises.mapM (renderExercise week)).isSome = true := by
  intro week h1 h2 dw day hday
  have hmem : day ∈ PROGRAM_DAYS := List.getElem?_mem hday
  have hall := renderOkAll_true
  unfold renderOkAll at hall
  simp only [List.all_eq_true] at hall
  have hw : week - 1 ∈ List.range 12 := by
    rw [List.mem_range]; omega
  have h3 := hall _ hw day hmem
  have hwk : week - 1 + 1 = week := by omega
  rw [hwk] at h3
  exact h3

/-- C8: an exercise spec matching no known variant (none of the six
dispatch conditions hold) renders as just its name, non-fatally; and the
rendering of every day's exercise list of the static program succeeds for
every week 1–12. -/
theorem fallback_rendering_total :
    (∀ (week : Nat) (ex : Exercise),
      ¬(ex.description.isSome = true ∧ keysCount ex = 2) →
      ¬(ex.base_load.isSome = true ∧ ex.increment.isSome = true) →
      ex.intervals.isSome = false →
      ¬(ex.duration.isSome = true ∧ ex.increment.isSome = true) →
      ¬(ex.duration_sec.isSome = true ∧ ex.increment_sec.isSome = true) →
      ¬(ex.sets.isSome = true ∧ ex.reps.isSome = true) →
      renderExercise week ex = some ("- " ++ ex.name)) ∧
    (∀ week : Nat, 1 ≤ week → week ≤ 12 → ∀ (dw : Nat) (day : DayPlan),
      PROGRAM dw = some day →
      (day.exercises.mapM (renderExercise week)).isSome = true) := by
  constructor
  · intro week ex h1 h2 h3 h4 h5 h6
    have c1 : ¬((ex.description.isSome && (keysCount ex == 2)) = true) := by
      simp only [Bool.and_eq_true, beq_iff_eq]
      exact fun h => h1 ⟨h.1, h.2⟩
    have c2 : ¬((ex.base_load.isSome && ex.increment.isSome) = true) := by
      simp only [Bool.and_eq_true]
      exact fun h => h2 ⟨h.1, h.2⟩
    have c3 : ¬(ex.intervals.isSome = true) := by
      rw [h3]; simp
    have c4 : ¬((ex.duration.isSome && ex.increment.isSome) = true) := by
      simp only [Bool.and_eq_true]
      exact fun h => h4 ⟨h.1, h.2⟩
    have c5 : ¬((ex.duration_sec.isSome && ex.increment_sec.isSome) = true) := by
      simp only [Bool.and_eq_true]
      exact fun h => h5 ⟨h.1, h.2⟩
    have c6 : ¬((ex.sets.isSome && ex.reps.isSome) = true) := by
      simp only [Bool.and_eq_true]
      exact fun h => h6 ⟨h.1, h.2⟩
    have hd : dispatch ex = Branch.fallback := by
      unfold dispatch
      rw [if_neg c1, if_neg c2, if_neg c3, if_neg c4, if_neg c5, if_neg c6]
    unfold renderExercise
    rw [hd]
  · exact mapM_render_isSome

/-- Witness for C8: a spec with only a name and a set count matches no
variant and renders as its bare name; Sunday's list renders fully at week 3. -/
theorem fallback_rendering_total_witness :
    renderExercise 3 { name := "Mystery Move", sets := some 3 } = some "- Mystery Move" ∧
    ((((PROGRAM 0).getD { title := "", exercises := [] }).exercises).mapM
        (renderExercise 3)).isSome = true := by
  refine ⟨?_, ?_⟩
  · exact fallback_rendering_total.1 3 { name := "Mystery Move", sets := some 3 }
      (by decide) (by decide) (by decide) (by decide) (by decide) (by decide)
  · exact fallback_rendering_total.2 3 (by decide) (by decide) 0 _ rfl

lemma get_sets_ne_zero (week : Nat) {s : ℤ} (h : s ≠ 0) :
    get_sets_for_week week s ≠ 0 := by
  unfold get_sets_for_week
  split_ifs <;> omega

lemma truthy_some_of_ne {z : ℤ} (h : z ≠ 0) : truthy (some z) = true := by
  simp [truthy, h]

/-- C9: the loaded branch precedes the bodyweight branch: any spec with
both `base_load` and `increment` present renders as a loaded exercise
("name: SxR @ L lbs"), even when the load is 0; and in the static program
every spec with both `sets` and `reps` also carries the two load fields, so
the dedicated bodyweight branch is never dispatched for any program entry. -/
theorem loaded_branch_precedence :
    (∀ (week : Nat) (ex : Exercise) (bl i : ℚ) (s r : ℤ),
      ex.base_load = some bl → ex.increment = some i →
      ex.sets = some s → ex.reps = some r → s ≠ 0 → r ≠ 0 →
      dispatch ex = Branch.loaded ∧
      renderExercise week ex =
        some ("- " ++ ex.name ++ ": " ++ toString (get_sets_for_week week s) ++ "x"
          ++ toString r ++ " @ " ++ toString (adjusted_load week bl i) ++ " lbs")) ∧
    (∀ (dw : Nat) (day : DayPlan), PROGRAM dw = some day → ∀ ex ∈ day.exercises,
      (ex.sets.isSome = true ∧ ex.reps.isSome = true →
        ex.base_load.isSome = true ∧ ex.increment.isSome = true) ∧
      dispatch ex ≠ Branch.bodyweight) := by
  constructor
  · intro week ex bl i s r hbl hinc hs hr hs0 hr0
    have hkc : keysCount ex ≠ 2 := by
      unfold keysCount
      rw [hbl, hinc, hs, hr]
      simp only [Option.isSome_some, if_true]
      split_ifs <;> omega
    have c1 : ¬((ex.description.isSome && (keysCount ex == 2)) = true) := by
      simp only [Bool.and_eq_true, beq_iff_eq]
      rintro ⟨-, h⟩
      exact hkc h
    have c2 : (ex.base_load.isSome && ex.increment.isSome) = true := by
      rw [hbl, hinc]; rfl
    have hd : dispatch ex = Branch.loaded := by
      unfold dispatch
      rw [if_neg c1, if_pos c2]
    refine ⟨hd, ?_⟩
    unfold renderExercise
    rw [hd]
    dsimp only
    rw [hbl, hinc, hs, hr]
    dsimp only [bind, Option.bind, Option.map]
    rw [truthy_some_of_ne (get_sets_ne_zero week hs0), truthy_some_of_ne hr0]
    rfl
  · intro dw day hday ex hex
    have hmem : day ∈ PROGRAM_DAYS := List.getElem?_mem hday
    clear hday
    fin_cases hmem <;> fin_cases hex <;> exact ⟨by decide, by decide⟩

/-- Witness for C9: Ring Push-Ups (base load 0, increment 0) render through
the loaded branch as "4x8 @ 0 lbs", not through the bodyweight branch. -/
theorem loaded_branch_precedence_witness :
    renderExercise 1 ringPushUpsEx = some "- Ring Push-Ups: 4x8 @ 0 lbs" :=
  ((loaded_branch_precedence.1 1 ringPushUpsEx 0 0 4 8 rfl rfl rfl rfl
      (by decide) (by decide)).2).trans (by with_unfolding_all decide)

/-- C7: a missing argument and an unparsable date exit with status 1 and a
single message (no workout output); a date before the start, or more than 83
days after it, prints one informational line and exits with status 0. -/
theorem cli_error_handling :
    runMain [] = some (1, ["Usage: python3 tracker.py YYYY-MM-DD"]) ∧
    (∀ (s : String) (rest : List String), parseDate s = none →
      runMain (s :: rest) = some (1, ["Invalid date format. Use YYYY-MM-DD."])) ∧
    (∀ (s : String) (rest : List String) (y m d : Nat),
      parseDate s = some (y, m, d) → toOrdinal y m d < START_ORD →
      runMain (s :: rest)
        = some (0, ["Program starts on 2024-12-29. Today is too early."])) ∧
    (∀ (s : String) (rest : List String) (y m d : Nat),
      parseDate s = some (y, m, d) → START_ORD + 83 < toOrdinal y m d →
      runMain (s :: rest)
        = some (0, ["The 12-week program has been completed."])) := by
  refine ⟨rfl, ?_, ?_, ?_⟩
  · intro s rest h
    unfold runMain
    dsimp only
    rw [h]
  · intro s rest y m d hp hlt
    unfold runMain
    dsimp only
    rw [hp]
    unfold runOnDate
    dsimp only
    have hc : ((toOrdinal y m d : ℤ) - (START_ORD : ℤ) < 0) := by omega
    rw [if_pos hc]
    rfl
  · intro s rest y m d hp hgt
    unfold runMain
    dsimp only
    rw [hp]
    unfold runOnDate
    dsimp only
    have hc1 : ¬((toOrdinal y m d : ℤ) - (START_ORD : ℤ) < 0) := by omega
    have hc2 : ((toOrdinal y m d : ℤ) - (START_ORD : ℤ) > 83) := by omega
    rw [if_neg hc1, if_pos hc2]

/-- Witness for C7: a slashed date and a three-digit year fail to parse
(exit 1); the day before the start and a space-padded day before the start
report "too early" (exit 0); 84 days after the start reports completion
(exit 0). -/
theorem cli_error_handling_witness :
    runMain ["2024/12/29"] = some (1, ["Invalid date format. Use YYYY-MM-DD."]) ∧
    runMain ["905-1-1"] = some (1, ["Invalid date format. Use YYYY-MM-DD."]) ∧
    runMain ["2024-12-28"]
      = some (0, ["Program starts on 2024-12-29. Today is too early."]) ∧
    runMain ["2024-12- 9"]
      = some (0, ["Program starts on 2024-12-29. Today is too early."]) ∧
    runMain ["2025-03-23"] = some (0, ["The 12-week program has been completed."]) :=
  ⟨cli_error_handling.2.1 "2024/12/29" [] (by decide),
   cli_error_handling.2.1 "905-1-1" [] (by decide),
   cli_error_handling.2.2.1 "2024-12-28" [] 2024 12 28 (by decide) (by decide),
   cli_error_handling.2.2.1 "2024-12- 9" [] 2024 12 9 (by decide) (by decide),
   cli_error_handling.2.2.2 "2025-03-23" [] 2025 3 23 (by decide) (by decide)⟩

lemma PROGRAM_isSome : ∀ dw : Nat, dw < 7 → ∃ day, PROGRAM dw = some day := by
  intro dw h
  interval_cases dw <;> exact ⟨_, rfl⟩

/-- C2: for every date 0–83 days after the start date, the driver takes
`week = day_offset / 7 + 1` (1–12; day 0 gives week 1, day 83 gives week 12)
and `day_of_week = day_offset % 7` (0–6), looks up that day's plan, and
prints all of its exercises bracketed by the fixed header and footer lines. -/
theorem date_window_rendering :
    ∀ (off : Nat), off ≤ 83 → ∀ (y m d : Nat),
      toOrdinal y m d = START_ORD + off →
      1 ≤ off / 7 + 1 ∧ off / 7 + 1 ≤ 12 ∧ off % 7 < 7 ∧
      (off = 0 → off / 7 + 1 = 1) ∧ (off = 83 → off / 7 + 1 = 12) ∧
      (runOnDate y m d).isSome = true ∧
      runOnDate y m d =
        (PROGRAM (off % 7)).bind fun day =>
          (day.exercises.mapM (renderExercise (off / 7 + 1))).map fun lines =>
            (0, headerLines y m d (off / 7 + 1) day.title ++ lines ++ footerLines) := by
  intro off hoff y m d hdate
  obtain ⟨day, hday⟩ := PROGRAM_isSome (off % 7) (Nat.mod_lt _ (by norm_num))
  have hmapM := mapM_render_isSome (off / 7 + 1) (by omega) (by omega) _ _ hday
  obtain ⟨lines, hlines⟩ := Option.isSome_iff_exists.mp hmapM
  have htn : (((START_ORD + off : Nat) : ℤ) - (START_ORD : ℤ)).toNat = off := by omega
  have hrun : runOnDate y m d =
      some (0, headerLines y m d (off / 7 + 1) day.title ++ lines ++ footerLines) := by
    unfold runOnDate
    rw [hdate]
    rw [if_neg (by omega), if_neg (by omega), htn]
    dsimp only
    rw [hday]
    dsimp only
    rw [hlines]
  refine ⟨by omega, by omega, Nat.mod_lt _ (by norm_num), by omega, by omega,
    by rw [hrun]; rfl, ?_⟩
  rw [hrun, hday]
  dsimp only [Option.bind]
  rw [hlines]
  rfl

/-- Witness for C2 at the last program day: 2025-03-22 is 83 days after
2024-12-29, giving week 12, day-of-week 6, and a successful rendering. -/
theorem date_window_rendering_witness :
    (83 : Nat) / 7 + 1 = 12 ∧ (83 : Nat) % 7 < 7 ∧
    (runOnDate 2025 3 22).isSome = true :=
  ⟨(date_window_rendering 83 (by decide) 2025 3 22 (by decide)).2.2.2.2.1 rfl,
   (date_window_rendering 83 (by decide) 2025 3 22 (by decide)).2.2.1,
   (date_window_rendering 83 (by decide) 2025 3 22 (by decide)).2.2.2.2.2.1⟩
